import Mathlib

/-!
Verification of the Noether perpetual-futures engine (Soroban/Rust contracts).

The definitions below are a shallow embedding of the contract code:
* Rust `i128` values are modelled as `Int`; Rust `/` on `i128` truncates
  toward zero, which is `Int.tdiv` (never `Int.ediv`).
* Rust `u32`/`u64` quantities (leverage, basis points, timestamps, hours)
  are modelled as `Nat` and cast to `Int` exactly where the source casts.
* fallible entry points return `Except NoetherError _`; a Soroban contract
  call that returns `Err` has all its state changes rolled back, so an
  `.error` result carries no successor state.  Where a claim is about
  "no transfer occurs", the model returns the list of token transfers the
  call performs, in program order.
* cross-contract calls (oracle, token client) are modelled by passing the
  values they would return (price, live token balance) as arguments.
-/

deriving instance DecidableEq for Except

namespace Noether

/-- Fixed-point precision, `PRECISION = 10^7` from `noether_common/src/types.rs`. -/
def PRECISION : Int := 10000000

/-- Basis-points denominator, `BASIS_POINTS = 10000` from `noether_common/src/types.rs`. -/
def BASIS_POINTS : Int := 10000

/-- Direction of a position, from `noether_common/src/types.rs`. -/
inductive Direction where
  | Long
  | Short
deriving DecidableEq, Repr

/-- Errors of the protocol (the subset reached by the modelled code paths),
from `noether_common/src/errors.rs`. -/
inductive NoetherError where
  | DivisionByZero
  | Overflow
  | InsufficientCollateral
  | InvalidLeverage
  | PositionTooLarge
  | InvalidPrice
  | PriceStale
  | NotLiquidatable
  | InsufficientLiquidity
  | InvalidAmount
  | InsufficientGlpBalance
  | FundingIntervalNotElapsed
deriving DecidableEq, Repr

/-- A trader's leveraged position, from `noether_common/src/types.rs`.
The `id`, `trader` and `asset` fields play no role in any modelled
computation and are omitted; all numeric fields are kept. -/
structure Position where
  collateral : Int
  size : Int
  entry_price : Int
  direction : Direction
  leverage : Nat
  liquidation_price : Int
  last_funding_time : Nat
  accumulated_funding : Int
deriving DecidableEq, Repr

/-- Market configuration fields used by the modelled code paths, from
`noether_common/src/types.rs` (`MarketConfig`). -/
structure MarketConfig where
  min_collateral : Int
  max_leverage : Nat
  maintenance_margin_bps : Nat
  liquidation_fee_bps : Nat
  trading_fee_bps : Nat
  base_funding_rate_bps : Nat
  max_position_size : Int
deriving DecidableEq, Repr

/-- Default market configuration from `impl Default for MarketConfig` in
`noether_common/src/types.rs`. -/
def default_config : MarketConfig :=
  { min_collateral := 10 * PRECISION
    max_leverage := 10
    maintenance_margin_bps := 100
    liquidation_fee_bps := 500
    trading_fee_bps := 10
    base_funding_rate_bps := 1
    max_position_size := 100000 * PRECISION }

/-- Position sizing, `calculate_position_size` in `noether_common/src/math.rs`. -/
def calculate_position_size (collateral : Int) (leverage : Nat) : Int :=
  collateral * (leverage : Int)

/-- Liquidation price, `calculate_liquidation_price` in `noether_common/src/math.rs`. -/
def calculate_liquidation_price (entry_price : Int) (leverage : Nat)
    (direction : Direction) (maintenance_margin_bps : Nat) : Int :=
  let leverage_factor := Int.tdiv PRECISION (leverage : Int)
  let margin_factor := Int.tdiv ((maintenance_margin_bps : Int) * PRECISION) BASIS_POINTS
  match direction with
  | .Long =>
      let adjustment := leverage_factor - margin_factor
      entry_price - Int.tdiv (entry_price * adjustment) PRECISION
  | .Short =>
      let adjustment := leverage_factor - margin_factor
      entry_price + Int.tdiv (entry_price * adjustment) PRECISION

/-- Profit and loss, `calculate_pnl` in `noether_common/src/math.rs`. -/
def calculate_pnl (position : Position) (current_price : Int) :
    Except NoetherError Int :=
  if position.entry_price = 0 then
    .error .DivisionByZero
  else
    let pnl :=
      match position.direction with
      | .Long =>
          Int.tdiv (position.size * (current_price - position.entry_price))
            position.entry_price
      | .Short =>
          Int.tdiv (position.size * (position.entry_price - current_price))
            position.entry_price
    .ok pnl

/-- Liquidation trigger check, `should_liquidate` in `noether_common/src/math.rs`. -/
def should_liquidate (position : Position) (current_price : Int) : Bool :=
  match position.direction with
  | .Long => current_price ≤ position.liquidation_price
  | .Short => current_price ≥ position.liquidation_price

/-- Keeper reward, `calculate_keeper_reward` in `noether_common/src/math.rs`. -/
def calculate_keeper_reward (remaining_collateral : Int)
    (liquidation_fee_bps : Nat) : Int :=
  if remaining_collateral ≤ 0 then 0
  else Int.tdiv (remaining_collateral * (liquidation_fee_bps : Int)) BASIS_POINTS

/-- Funding rate, `calculate_funding_rate` in `noether_common/src/math.rs`. -/
def calculate_funding_rate (total_long_size total_short_size : Int)
    (base_rate_bps : Nat) : Int :=
  if total_long_size = 0 ∧ total_short_size = 0 then 0
  else if total_long_size = total_short_size then 0
  else
    let base_rate := (base_rate_bps : Int)
    if total_long_size > total_short_size then
      if total_long_size = 0 then 0
      else
        let imbalance :=
          Int.tdiv ((total_long_size - total_short_size) * BASIS_POINTS)
            total_long_size
        Int.tdiv (base_rate * imbalance) BASIS_POINTS
    else
      if total_short_size = 0 then 0
      else
        let imbalance :=
          Int.tdiv ((total_short_size - total_long_size) * BASIS_POINTS)
            total_short_size;
        -(Int.tdiv (base_rate * imbalance) BASIS_POINTS)

/-- Funding payment (signed-rate version), `calculate_funding_payment` in
`noether_common/src/math.rs`. -/
def calculate_funding_payment (position_size funding_rate : Int)
    (direction : Direction) (hours_elapsed : Nat) : Int :=
  if hours_elapsed = 0 then 0
  else
    let payment :=
      Int.tdiv (position_size * funding_rate * (hours_elapsed : Int)) BASIS_POINTS
    match direction with
    | .Long => payment
    | .Short => -payment

/-- Funding payment (absolute-value version),
`calculate_funding_payment_internal` in `market/src/funding.rs`. -/
def calculate_funding_payment_internal (position_size funding_rate : Int)
    (direction : Direction) (hours_elapsed : Nat) : Int :=
  if hours_elapsed = 0 ∨ funding_rate = 0 then 0
  else
    let base_payment :=
      Int.tdiv (position_size * |funding_rate| * (hours_elapsed : Int)) BASIS_POINTS
    match direction with
    | .Long => if funding_rate > 0 then base_payment else -base_payment
    | .Short => if funding_rate > 0 then -base_payment else base_payment

/-- GLP minting formula, `calculate_glp_for_deposit` in
`noether_common/src/math.rs`. -/
def calculate_glp_for_deposit (usdc_amount total_glp aum : Int) :
    Except NoetherError Int :=
  if total_glp = 0 ∨ aum = 0 then .ok usdc_amount
  else .ok (Int.tdiv (usdc_amount * total_glp) aum)

/-- Trading fee, `calculate_trading_fee` in `noether_common/src/math.rs`. -/
def calculate_trading_fee (position_size : Int) (fee_bps : Nat) : Int :=
  Int.tdiv (position_size * (fee_bps : Int)) BASIS_POINTS

/-- Liquidation proceeds helper, `calculate_liquidation_distribution` in
`market/src/liquidation.rs`; returns `(to_vault, to_keeper, bad_debt)`. -/
def calculate_liquidation_distribution (position : Position)
    (current_price : Int) (liquidation_fee_bps : Nat) : Int × Int × Int :=
  let pnl :=
    match position.direction with
    | .Long =>
        Int.tdiv (position.size * (current_price - position.entry_price))
          position.entry_price
    | .Short =>
        Int.tdiv (position.size * (position.entry_price - current_price))
          position.entry_price
  let remaining := position.collateral + pnl - position.accumulated_funding
  if remaining ≤ 0 then (0, 0, -remaining)
  else
    let keeper_reward :=
      Int.tdiv (remaining * (liquidation_fee_bps : Int)) BASIS_POINTS
    let to_vault := remaining - keeper_reward
    (to_vault, keeper_reward, 0)

/-- Result of `MarketContract::open_position` (`market/src/lib.rs`, lines
147-247), transcribed as a pure function.  The oracle price and the clock
are passed in; the vault liquidity reservation and the token transfers are
cross-contract effects that do not influence the stored position.  The
oracle adapter's `price <= 0` check (`get_oracle_price`) is included. -/
def open_position (config : MarketConfig) (collateral : Int) (leverage : Nat)
    (direction : Direction) (oracle_price : Int) (now : Nat) :
    Except NoetherError Position :=
  if collateral < config.min_collateral then .error .InsufficientCollateral
  else if leverage < 1 ∨ leverage > config.max_leverage then .error .InvalidLeverage
  else
    let size := calculate_position_size collateral leverage
    if size > config.max_position_size then .error .PositionTooLarge
    else if oracle_price ≤ 0 then .error .InvalidPrice
    else
      let entry_price := oracle_price
      let liquidation_price :=
        calculate_liquidation_price entry_price leverage direction
          config.maintenance_margin_bps
      let fee := calculate_trading_fee size config.trading_fee_bps
      let net_collateral := collateral - fee
      .ok { collateral := net_collateral
            size := size
            entry_price := entry_price
            direction := direction
            leverage := leverage
            liquidation_price := liquidation_price
            last_funding_time := now
            accumulated_funding := 0 }

/-- Amounts produced by `MarketContract::liquidate` (`market/src/lib.rs`,
lines 439-542).  `keeper_transfer` and `vault_transfer` are the token
amounts actually moved; both transfers in the source are guarded by a
strict `> 0` check, so a non-positive amount is never transferred. -/
structure LiquidateOutcome where
  pnl : Int
  remaining : Int
  keeper_reward : Int
  actual_keeper_reward : Int
  vault_receives : Int
  keeper_transfer : Int
  vault_transfer : Int
deriving DecidableEq, Repr

/-- The distribution computed by `MarketContract::liquidate`
(`market/src/lib.rs`, lines 450-505), transcribed as a pure function of
the position, the oracle price and the liquidation fee. -/
def liquidate (position : Position) (current_price : Int)
    (liquidation_fee_bps : Nat) : Except NoetherError LiquidateOutcome :=
  if ¬ should_liquidate position current_price then .error .NotLiquidatable
  else
    match calculate_pnl position current_price with
    | .error e => .error e
    | .ok pnl =>
      let remaining := position.collateral + pnl - position.accumulated_funding
      let keeper_reward :=
        if remaining > 0 then calculate_keeper_reward remaining liquidation_fee_bps
        else 0
      let actual_keeper_reward :=
        if keeper_reward > position.collateral then Int.tdiv position.collateral 10
        else keeper_reward
      let vault_receives :=
        if position.collateral > actual_keeper_reward then
          position.collateral - actual_keeper_reward
        else 0
      .ok { pnl := pnl
            remaining := remaining
            keeper_reward := keeper_reward
            actual_keeper_reward := actual_keeper_reward
            vault_receives := vault_receives
            keeper_transfer :=
              if actual_keeper_reward > 0 then actual_keeper_reward else 0
            vault_transfer := if vault_receives > 0 then vault_receives else 0 }

/-- Pool accounting state of the vault contract (`vault/src/storage.rs`),
together with its fee configuration. -/
structure VaultState where
  total_usdc : Int
  total_glp : Int
  unrealized_pnl : Int
  total_fees : Int
  deposit_fee_bps : Nat
  withdraw_fee_bps : Nat
deriving DecidableEq, Repr

/-- Assets under management, `VaultContract::calculate_aum_internal`
(`vault/src/lib.rs`, lines 660-677). -/
def calculate_aum_internal (s : VaultState) : Int :=
  let aum := s.total_usdc + s.total_fees - s.unrealized_pnl
  if aum < 0 then 0 else aum

/-- The settlement entry point `VaultContract::settle_pnl`
(`vault/src/lib.rs`, lines 283-333).  `vault_balance` is the live USDC
token balance the token client would report.  The first component is the
list of token transfers performed, in program order (each a transfer from
the vault to the market); the second is the resulting pool state, or the
typed error.  Both error returns in the source happen before any transfer
or accounting write, which the transcription makes visible: the error
branches carry an empty transfer list and the original state is not
modified. -/
def settle_pnl (s : VaultState) (vault_balance : Int) (pnl : Int) :
    List Int × Except NoetherError VaultState :=
  if pnl > 0 then
    if pnl > s.total_usdc then ([], .error .InsufficientLiquidity)
    else if pnl > vault_balance then ([], .error .InsufficientLiquidity)
    else ([pnl], .ok { s with total_usdc := s.total_usdc - pnl })
  else if pnl < 0 then
    ([], .ok { s with total_usdc := s.total_usdc + (-pnl) })
  else ([], .ok s)

/-- The LP entry point `VaultContract::deposit` (`vault/src/lib.rs`, lines
134-182), returning the new pool state and the GLP amount minted.
`glp::mint` increments both the depositor balance and the total supply
(`vault/src/glp.rs`); only the total supply is part of the pool state. -/
def deposit (s : VaultState) (usdc_amount : Int) :
    Except NoetherError (VaultState × Int) :=
  if usdc_amount ≤ 0 then .error .InvalidAmount
  else
    let fee := Int.tdiv (usdc_amount * (s.deposit_fee_bps : Int)) BASIS_POINTS
    let net_amount := usdc_amount - fee
    let total_glp := s.total_glp
    let aum := calculate_aum_internal s
    match calculate_glp_for_deposit net_amount total_glp aum with
    | .error e => .error e
    | .ok glp_to_mint =>
      if glp_to_mint ≤ 0 then .error .InvalidAmount
      else
        .ok ({ s with
                total_usdc := s.total_usdc + usdc_amount
                total_fees := s.total_fees + fee
                total_glp := s.total_glp + glp_to_mint }, glp_to_mint)

/-- The GLP amount that `deposit` computes for minting (the value of
`glp_to_mint` inside `VaultContract::deposit` before the `<= 0` rejection
check), as a standalone function of the pool state and the deposited
amount.  Used to state the C6 theorems compactly. -/
def deposit_minted (s : VaultState) (usdc_amount : Int) : Int :=
  let fee := Int.tdiv (usdc_amount * (s.deposit_fee_bps : Int)) BASIS_POINTS
  let net_amount := usdc_amount - fee
  let aum := calculate_aum_internal s
  if s.total_glp = 0 ∨ aum = 0 then net_amount
  else Int.tdiv (net_amount * s.total_glp) aum

/-- Aggregate market state relevant to `MarketContract::apply_funding`
(`market/src/storage.rs`). -/
structure MarketState where
  total_long_size : Int
  total_short_size : Int
  current_funding_rate : Int
  last_funding_time : Nat
  base_funding_rate_bps : Nat
deriving DecidableEq, Repr

/-- The entry point `MarketContract::apply_funding` (`market/src/lib.rs`,
lines 583-620).  The result pairs the (possibly updated) state with the
error, if any; the early `FundingIntervalNotElapsed` return happens before
any storage write, so on that path the state comes back unchanged. -/
def apply_funding (s : MarketState) (current_time : Nat) :
    MarketState × Option NoetherError :=
  if current_time < s.last_funding_time + 3600 then
    (s, some .FundingIntervalNotElapsed)
  else
    let hours_elapsed := (current_time - s.last_funding_time) / 3600
    if hours_elapsed = 0 then (s, none)
    else
      let funding_rate :=
        calculate_funding_rate s.total_long_size s.total_short_size
          s.base_funding_rate_bps
      ({ s with
          current_funding_rate := funding_rate
          last_funding_time := current_time }, none)

/-- Modelled from the spec (section 4.2): the funding-rate formula stated
there — zero when the totals are equal (including both zero), otherwise
`base_rate × (dominant − minority)/dominant` expressed in basis points,
with positive sign when longs dominate and negative sign when shorts
dominate.  Written independently from `calculate_funding_rate` so the two
can be compared. -/
def spec_funding_rate (total_long total_short : Int) (base_rate_bps : Nat) : Int :=
  if total_long = total_short then 0
  else if total_long > total_short then
    Int.tdiv ((base_rate_bps : Int) *
      (Int.tdiv ((total_long - total_short) * BASIS_POINTS) total_long)) BASIS_POINTS
  else
    -(Int.tdiv ((base_rate_bps : Int) *
      (Int.tdiv ((total_short - total_long) * BASIS_POINTS) total_short)) BASIS_POINTS)

/-! Helper lemmas about truncating division. -/

theorem tdiv_nonpos_of_nonpos_of_nonneg {a b : Int} (ha : a ≤ 0) (hb : 0 ≤ b) :
    Int.tdiv a b ≤ 0 := by
  have h : Int.tdiv (-(-a)) b = -Int.tdiv (-a) b := Int.neg_tdiv (-a) b
  rw [neg_neg] at h
  rw [h]
  have : 0 ≤ Int.tdiv (-a) b := Int.tdiv_nonneg (by omega) hb
  omega

theorem one_le_tdiv_of_le {a b : Int} (hb : 0 < b) (h : b ≤ a) :
    1 ≤ Int.tdiv a b := by
  rw [Int.tdiv_eq_ediv (by omega) (by omega)]
  rw [Int.le_ediv_iff_mul_le hb]
  omega

/-- C9: for every position and current price, `calculate_pnl` fails with
`DivisionByZero` exactly when the entry price is zero, and otherwise
returns `size×(current−entry)/entry` for Long and
`size×(entry−current)/entry` for Short under truncating integer division;
a Long with entry 1.00 and size 1000 has pnl +100 at price 1.10 and
−100 at price 0.90, and a Short mirrors both signs. -/
theorem c9_pnl (position : Position) (current_price : Int) :
    (calculate_pnl position current_price = .error .DivisionByZero ↔
      position.entry_price = 0) ∧
    (position.direction = .Long → position.entry_price ≠ 0 →
      calculate_pnl position current_price =
        .ok (Int.tdiv (position.size * (current_price - position.entry_price))
          position.entry_price)) ∧
    (position.direction = .Short → position.entry_price ≠ 0 →
      calculate_pnl position current_price =
        .ok (Int.tdiv (position.size * (position.entry_price - current_price))
          position.entry_price)) ∧
    calculate_pnl ⟨100 * PRECISION, 1000 * PRECISION, PRECISION,
      Direction.Long, 10, 0, 0, 0⟩ 11000000 = .ok (100 * PRECISION) ∧
    calculate_pnl ⟨100 * PRECISION, 1000 * PRECISION, PRECISION,
      Direction.Long, 10, 0, 0, 0⟩ 9000000 = .ok (-(100 * PRECISION)) ∧
    calculate_pnl ⟨100 * PRECISION, 1000 * PRECISION, PRECISION,
      Direction.Short, 10, 0, 0, 0⟩ 11000000 = .ok (-(100 * PRECISION)) ∧
    calculate_pnl ⟨100 * PRECISION, 1000 * PRECISION, PRECISION,
      Direction.Short, 10, 0, 0, 0⟩ 9000000 = .ok (100 * PRECISION) := by
  refine ⟨?_, ?_, ?_, by decide, by decide, by decide, by decide⟩
  · unfold calculate_pnl
    by_cases h : position.entry_price = 0 <;> simp [h]
  · intro hd h
    unfold calculate_pnl
    simp [h, hd]
  · intro hd h
    unfold calculate_pnl
    simp [h, hd]

/-- Witness for C9 at a concrete input. -/
theorem c9_pnl_witness :
    calculate_pnl ⟨100 * PRECISION, 1000 * PRECISION, PRECISION,
      Direction.Long, 10, 0, 0, 0⟩ 11000000 =
      .ok (Int.tdiv (1000 * PRECISION * (11000000 - PRECISION)) PRECISION) :=
  (c9_pnl ⟨100 * PRECISION, 1000 * PRECISION, PRECISION,
    Direction.Long, 10, 0, 0, 0⟩ 11000000).2.1 rfl (by decide)

/-- C10: the signed-rate funding payment `calculate_funding_payment` and
the absolute-value variant `calculate_funding_payment_internal` agree on
every input; the common value is 0 whenever `hours_elapsed = 0` or the
rate is 0, and the Short payment is the negation of the Long payment for
the same size, rate and hours. -/
theorem c10_funding_payment_equiv (position_size funding_rate : Int)
    (direction : Direction) (hours_elapsed : Nat) :
    calculate_funding_payment position_size funding_rate direction hours_elapsed =
      calculate_funding_payment_internal position_size funding_rate direction
        hours_elapsed ∧
    calculate_funding_payment position_size funding_rate direction 0 = 0 ∧
    calculate_funding_payment position_size 0 direction hours_elapsed = 0 ∧
    calculate_funding_payment position_size funding_rate Direction.Short
        hours_elapsed =
      -(calculate_funding_payment position_size funding_rate Direction.Long
        hours_elapsed) := by
  refine ⟨?_, by simp [calculate_funding_payment], ?_, ?_⟩
  · unfold calculate_funding_payment calculate_funding_payment_internal
    by_cases h0 : hours_elapsed = 0
    · simp [h0]
    · rcases lt_trichotomy funding_rate 0 with hr | hr | hr
      · have habs : |funding_rate| = -funding_rate := abs_of_neg hr
        have hne : funding_rate ≠ 0 := ne_of_lt hr
        have hng : ¬ funding_rate > 0 := not_lt.mpr (le_of_lt hr)
        have hkey : position_size * -funding_rate * (hours_elapsed : Int) =
            -(position_size * funding_rate * (hours_elapsed : Int)) := by ring
        cases direction <;>
          simp [h0, hne, hng, habs, hkey, Int.neg_tdiv]
      · cases direction <;> simp [h0, hr, Int.zero_tdiv]
      · have habs : |funding_rate| = funding_rate := abs_of_pos hr
        have hne : funding_rate ≠ 0 := ne_of_gt hr
        cases direction <;> simp [h0, hne, hr, habs]
  · unfold calculate_funding_payment
    by_cases h0 : hours_elapsed = 0
    · simp [h0]
    · cases direction <;> simp [h0, Int.zero_tdiv]
  · unfold calculate_funding_payment
    by_cases h0 : hours_elapsed = 0 <;> simp [h0]

/-- C7: the funding rate computed by `calculate_funding_rate` coincides on
every input with the spec formula `spec_funding_rate` (zero when the
totals are equal, otherwise base × (dominant−minority)/dominant in basis
points, signed positively when longs dominate and negatively when shorts
dominate); it is nonnegative when longs dominate and nonpositive when
shorts dominate (for nonnegative totals), and the spec's example values
are met exactly: totals 2000/1000 at base 10 bps give +5, swapped give
−5. -/
theorem c7_funding_rate (total_long total_short : Int) (base_rate_bps : Nat) :
    calculate_funding_rate total_long total_short base_rate_bps =
      spec_funding_rate total_long total_short base_rate_bps ∧
    (total_long = total_short →
      calculate_funding_rate total_long total_short base_rate_bps = 0) ∧
    (0 ≤ total_short → total_short < total_long →
      0 ≤ calculate_funding_rate total_long total_short base_rate_bps) ∧
    (0 ≤ total_long → total_long < total_short →
      calculate_funding_rate total_long total_short base_rate_bps ≤ 0) ∧
    calculate_funding_rate (2000 * PRECISION) (1000 * PRECISION) 10 = 5 ∧
    calculate_funding_rate (1000 * PRECISION) (2000 * PRECISION) 10 = -5 := by
  refine ⟨?_, ?_, ?_, ?_, by decide, by decide⟩
  · unfold calculate_funding_rate spec_funding_rate
    split_ifs <;> simp_all [Int.tdiv_zero, Int.zero_tdiv]
  · intro heq
    unfold calculate_funding_rate
    by_cases hb : total_long = 0 ∧ total_short = 0 <;> simp [hb, heq]
  · intro hs hlt
    unfold calculate_funding_rate
    have hb : ¬ (total_long = 0 ∧ total_short = 0) := by omega
    have heq : ¬ (total_long = total_short) := by omega
    have hgt : total_long > total_short := hlt
    have hz : ¬ (total_long = 0) := by omega
    simp only [hb, heq, hgt, hz, if_false, if_true]
    exact Int.tdiv_nonneg
      (mul_nonneg (Int.natCast_nonneg _)
        (Int.tdiv_nonneg (mul_nonneg (by omega) (by norm_num [BASIS_POINTS]))
          (by omega)))
      (by norm_num [BASIS_POINTS])
  · intro hs hlt
    unfold calculate_funding_rate
    have hb : ¬ (total_long = 0 ∧ total_short = 0) := by omega
    have heq : ¬ (total_long = total_short) := by omega
    have hgt : ¬ (total_long > total_short) := by omega
    have hz : ¬ (total_short = 0) := by omega
    simp only [hb, heq, hgt, hz, if_false, if_true]
    have : 0 ≤ Int.tdiv ((base_rate_bps : Int) *
        Int.tdiv ((total_short - total_long) * BASIS_POINTS) total_short)
        BASIS_POINTS :=
      Int.tdiv_nonneg
        (mul_nonneg (Int.natCast_nonneg _)
          (Int.tdiv_nonneg (mul_nonneg (by omega) (by norm_num [BASIS_POINTS]))
            (by omega)))
        (by norm_num [BASIS_POINTS])
    omega

/-- Witness for C7 at a concrete input. -/
theorem c7_funding_rate_witness :
    calculate_funding_rate (2000 * PRECISION) (1000 * PRECISION) 10 =
      spec_funding_rate (2000 * PRECISION) (1000 * PRECISION) 10 ∧
    0 ≤ calculate_funding_rate (2000 * PRECISION) (1000 * PRECISION) 10 :=
  ⟨(c7_funding_rate (2000 * PRECISION) (1000 * PRECISION) 10).1,
   (c7_funding_rate (2000 * PRECISION) (1000 * PRECISION) 10).2.2.1
     (by decide) (by decide)⟩

/-- C8: calling `apply_funding` strictly before one full 3600-second
interval has elapsed since the last application returns the typed error
`FundingIntervalNotElapsed` (not a silent no-op), and the market state —
in particular the stored funding rate and the last-funding timestamp —
comes back unchanged. -/
theorem c8_apply_funding_interval (s : MarketState) (current_time : Nat)
    (h : current_time < s.last_funding_time + 3600) :
    apply_funding s current_time =
      (s, some NoetherError.FundingIntervalNotElapsed) := by
  unfold apply_funding
  simp [h]

/-- Witness for C8 at a concrete input. -/
theorem c8_apply_funding_interval_witness :
    apply_funding ⟨0, 0, 0, 1000, 1⟩ 1500 =
      (⟨0, 0, 0, 1000, 1⟩, some NoetherError.FundingIntervalNotElapsed) :=
  c8_apply_funding_interval ⟨0, 0, 0, 1000, 1⟩ 1500 (by omega)

/-- C2: for a trader win (`pnl > 0`), `settle_pnl` rejects with
`InsufficientLiquidity` exactly when the payout exceeds the pool's
recorded balance (`total_usdc`) or its live token balance — both checks
are performed — and on such a rejection it performs no token transfer and
returns without touching any pool accounting field; when neither bound is
exceeded it transfers exactly the payout and decrements `total_usdc` by
it, leaving every other field unchanged. -/
theorem c2_settle_pnl_insufficient_liquidity (s : VaultState)
    (vault_balance pnl : Int) (hpos : 0 < pnl) :
    ((settle_pnl s vault_balance pnl).2 =
        .error NoetherError.InsufficientLiquidity ↔
      (s.total_usdc < pnl ∨ vault_balance < pnl)) ∧
    ((s.total_usdc < pnl ∨ vault_balance < pnl) →
      settle_pnl s vault_balance pnl =
        ([], .error NoetherError.InsufficientLiquidity)) ∧
    (pnl ≤ s.total_usdc → pnl ≤ vault_balance →
      settle_pnl s vault_balance pnl =
        ([pnl], .ok { s with total_usdc := s.total_usdc - pnl })) := by
  unfold settle_pnl
  by_cases h1 : pnl > s.total_usdc
  · simp [hpos, h1]
  · by_cases h2 : pnl > vault_balance
    · simp [hpos, h1, h2]
    · simp [hpos, h1, h2]

/-- Witness for C2 at a concrete input: recorded balance 100, live
balance 0, payout 50 is rejected with no transfer. -/
theorem c2_settle_pnl_witness :
    settle_pnl ⟨100, 0, 0, 0, 0, 0⟩ 0 50 =
      ([], .error NoetherError.InsufficientLiquidity) :=
  (c2_settle_pnl_insufficient_liquidity ⟨100, 0, 0, 0, 0, 0⟩ 0 50
    (by omega)).2.1 (Or.inr (by omega))

/-- C1 counterexample: a Long position with collateral 100, size 1000,
entry 1.00, liquidated at price 0.85 has remaining equity −50 ≤ 0 (bad
debt), yet `liquidate` pays the vault the full collateral of 100, not a
pool share of 0 as the claim states. -/
theorem c1_counterexample :
    liquidate ⟨100 * PRECISION, 1000 * PRECISION, PRECISION, Direction.Long,
        10, 9100000, 0, 0⟩ 8500000 500 =
      .ok ⟨-(150 * PRECISION), -(50 * PRECISION), 0, 0, 100 * PRECISION, 0,
        100 * PRECISION⟩ ∧
    (-(50 * PRECISION) : Int) ≤ 0 ∧
    (100 * PRECISION : Int) ≠ 0 := by decide

/-- C1 as amended: a liquidation whose remaining equity is ≤ 0 pays the
keeper exactly 0, and pays the pool the position's entire (nonnegative)
collateral — not 0; the shortfall beyond the collateral is the bad debt
the pool absorbs by never being paid it.  Moreover no liquidation ever
attempts a negative transfer: both outgoing transfers are clamped to be
nonnegative by the `> 0` guards in the source. -/
theorem c1_liquidate_bad_debt_amended (position : Position)
    (current_price : Int) (liquidation_fee_bps : Nat) (out : LiquidateOutcome)
    (hok : liquidate position current_price liquidation_fee_bps = .ok out) :
    (out.remaining ≤ 0 → 0 ≤ position.collateral →
      out.actual_keeper_reward = 0 ∧ out.keeper_transfer = 0 ∧
      out.vault_receives = position.collateral ∧
      out.vault_transfer = position.collateral) ∧
    0 ≤ out.keeper_transfer ∧ 0 ≤ out.vault_transfer := by
  unfold liquidate at hok
  split at hok
  · cases hok
  · split at hok
    · cases hok
    · rw [Except.ok.injEq] at hok
      subst hok
      refine ⟨?_, ?_, ?_⟩
      · intro hrem hcoll
        simp only at hrem ⊢
        split_ifs <;> omega
      · simp only
        split_ifs <;> omega
      · simp only
        split_ifs <;> omega

/-- Witness for C1 at a concrete bad-debt input. -/
theorem c1_liquidate_bad_debt_witness :
    ((0:Int) = 0 ∧ (0:Int) = 0 ∧ (100 * PRECISION : Int) = 100 * PRECISION ∧
      (100 * PRECISION : Int) = 100 * PRECISION) ∧
    (0:Int) ≤ 0 ∧ (0:Int) ≤ 100 * PRECISION := by
  have h := c1_liquidate_bad_debt_amended
    ⟨100 * PRECISION, 1000 * PRECISION, PRECISION, Direction.Long, 10,
      9100000, 0, 0⟩ 8500000 500
    ⟨-(150 * PRECISION), -(50 * PRECISION), 0, 0, 100 * PRECISION, 0,
      100 * PRECISION⟩ (by decide)
  exact ⟨h.1 (by decide) (by decide), h.2⟩

/-- C3 counterexample: a liquidatable Long position with collateral 100,
size 1000, entry 1.00 and accumulated funding −2100 (funding owed to the
trader), liquidated at price 0.90 with the default 5% liquidation fee,
has remaining equity 2100 > 0; the basis-points share would be
2100×500/10000 = 105, which exceeds the collateral of 100, so the code
pays the keeper collateral/10 = 10 instead — an extra cap the claim says
does not exist. -/
theorem c3_counterexample :
    liquidate ⟨100 * PRECISION, 1000 * PRECISION, PRECISION, Direction.Long,
        10, 9100000, 0, -(2100 * PRECISION)⟩ 9000000 500 =
      .ok ⟨-(100 * PRECISION), 2100 * PRECISION, 105 * PRECISION,
        10 * PRECISION, 90 * PRECISION, 10 * PRECISION, 90 * PRECISION⟩ ∧
    (0:Int) < 2100 * PRECISION ∧
    (10 * PRECISION : Int) ≠ Int.tdiv (2100 * PRECISION * 500) BASIS_POINTS := by
  decide

/-- C3 as amended: for positive remaining equity the basis-points reward
`remaining_equity × fee_bps / 10000` (truncating) is computed, but the
amount actually paid to the keeper is additionally capped — whenever that
amount exceeds the position's collateral, the keeper is paid
`collateral / 10` instead; for remaining equity ≤ 0 the keeper is paid
nothing. -/
theorem c3_keeper_reward_amended (position : Position) (current_price : Int)
    (liquidation_fee_bps : Nat) (out : LiquidateOutcome)
    (hok : liquidate position current_price liquidation_fee_bps = .ok out) :
    (0 < out.remaining →
      out.keeper_reward =
        Int.tdiv (out.remaining * (liquidation_fee_bps : Int)) BASIS_POINTS ∧
      out.actual_keeper_reward =
        (if position.collateral < out.keeper_reward then
          Int.tdiv position.collateral 10
         else out.keeper_reward) ∧
      out.keeper_transfer =
        (if 0 < out.actual_keeper_reward then out.actual_keeper_reward
         else 0)) ∧
    (out.remaining ≤ 0 → out.keeper_transfer = 0) := by
  unfold liquidate at hok
  split at hok
  · cases hok
  · split at hok
    · cases hok
    · rw [Except.ok.injEq] at hok
      subst hok
      constructor
      · intro hrem
        simp only at hrem ⊢
        simp only [calculate_keeper_reward]
        split_ifs <;> first | omega | exact ⟨rfl, trivial, trivial⟩
      · intro hrem
        simp only at hrem ⊢
        by_cases hcoll : 0 ≤ position.collateral
        · split_ifs <;> omega
        · have hd : Int.tdiv position.collateral 10 ≤ 0 :=
            tdiv_nonpos_of_nonpos_of_nonneg (by omega) (by omega)
          split_ifs <;> omega

/-- Witness for C3 at the concrete capped input. -/
theorem c3_keeper_reward_witness :
    ((105 * PRECISION : Int) =
        Int.tdiv (2100 * PRECISION * (500:Nat)) BASIS_POINTS ∧
      (10 * PRECISION : Int) =
        (if (100 * PRECISION : Int) < 105 * PRECISION then
          Int.tdiv (100 * PRECISION) 10
         else 105 * PRECISION) ∧
      (10 * PRECISION : Int) =
        (if (0:Int) < 10 * PRECISION then (10 * PRECISION : Int) else 0)) :=
  (c3_keeper_reward_amended
    ⟨100 * PRECISION, 1000 * PRECISION, PRECISION, Direction.Long, 10,
      9100000, 0, -(2100 * PRECISION)⟩ 9000000 500
    ⟨-(100 * PRECISION), 2100 * PRECISION, 105 * PRECISION, 10 * PRECISION,
      90 * PRECISION, 10 * PRECISION, 90 * PRECISION⟩ (by decide)).1
    (by decide)

/-- C4 counterexample: opening a position with the default configuration
(trading fee 10 bps), gross collateral 100, leverage 10, price 1.00
stores collateral 99 (net of the fee of 1, charged on the notional size)
but size 1000 = gross collateral × leverage, so size ≠ stored collateral
× leverage, contradicting the claim that size = (c − f) × L. -/
theorem c4_counterexample :
    open_position default_config (100 * PRECISION) 10 Direction.Long
        PRECISION 0 =
      .ok ⟨99 * PRECISION, 1000 * PRECISION, PRECISION, Direction.Long, 10,
        9100000, 0, 0⟩ ∧
    (1000 * PRECISION : Int) ≠ (99 * PRECISION) * 10 := by decide

/-- C4 as amended: every successful `open_position` with gross collateral
`c`, leverage `L` and trading fee `f = c×L×fee_bps/10000` stores
`size = c × L` (computed from the gross collateral, before the fee) and
`collateral = c − f`; consequently `size = collateral_field × L` holds
exactly as stated in the claim only when the trading fee is zero. -/
theorem c4_open_position_size_amended (config : MarketConfig)
    (collateral : Int) (leverage : Nat) (direction : Direction)
    (oracle_price : Int) (now : Nat) (p : Position)
    (hok : open_position config collateral leverage direction oracle_price now =
      .ok p) :
    p.size = collateral * (leverage : Int) ∧
    p.collateral = collateral -
      Int.tdiv (collateral * (leverage : Int) * (config.trading_fee_bps : Int))
        BASIS_POINTS ∧
    (config.trading_fee_bps = 0 → p.size = p.collateral * (leverage : Int)) := by
  unfold open_position at hok
  dsimp only at hok
  split at hok
  · cases hok
  · split at hok
    · cases hok
    · split at hok
      · cases hok
      · split at hok
        · cases hok
        · rw [Except.ok.injEq] at hok
          subst hok
          refine ⟨rfl, rfl, ?_⟩
          intro hfee
          simp [calculate_position_size, calculate_trading_fee, hfee,
            Int.zero_tdiv]

/-- Witness for C4 with a zero trading fee, where size = collateral × L
does hold. -/
theorem c4_open_position_size_witness :
    (⟨100 * PRECISION, 1000 * PRECISION, PRECISION, Direction.Long, 10,
        9100000, 0, 0⟩ : Position).size =
      (⟨100 * PRECISION, 1000 * PRECISION, PRECISION, Direction.Long, 10,
        9100000, 0, 0⟩ : Position).collateral * ((10 : Nat) : Int) :=
  (c4_open_position_size_amended
    { default_config with trading_fee_bps := 0 } (100 * PRECISION) 10
    Direction.Long PRECISION 0
    ⟨100 * PRECISION, 1000 * PRECISION, PRECISION, Direction.Long, 10,
      9100000, 0, 0⟩ (by decide)).2.2 rfl

/-- C5 counterexample: entry price 1 (the smallest positive raw value),
leverage 10 (in range) and maintenance margin 100 bps (1% < 1/10) give a
Long liquidation price exactly equal to the entry price — truncation sends
the adjustment to zero — so the liquidation price does not lie strictly
on the losing side of entry for every positive entry price. -/
theorem c5_counterexample :
    (0 : Int) < 1 ∧ (1 : Nat) ≤ 10 ∧ (10 : Nat) ≤ 10 ∧ 100 * 10 < 10000 ∧
    calculate_liquidation_price 1 10 Direction.Long 100 = 1 := by decide

/-- C5 as amended: the liquidation price equals
`entry × (1 − (1/leverage − maintenance_margin))` for Long and
`entry × (1 + (1/leverage − maintenance_margin))` for Short under
7-decimal truncating arithmetic (computed as
`entry ∓ tdiv (entry × adjustment) PRECISION`), and lies strictly on the
losing side of entry whenever the scaled product `entry × adjustment` is
at least `PRECISION` (one raw price unit); for Long with leverage 10 and
maintenance margin 1% it is strictly between 0.85×entry and entry for
every entry ≥ 12 raw units, and for Short strictly between entry and
1.15×entry. -/
theorem c5_liquidation_price_amended (entry_price : Int)
    (leverage maintenance_margin_bps : Nat) :
    (calculate_liquidation_price entry_price leverage Direction.Long
        maintenance_margin_bps =
      entry_price - Int.tdiv (entry_price *
        (Int.tdiv PRECISION (leverage : Int) -
         Int.tdiv ((maintenance_margin_bps : Int) * PRECISION) BASIS_POINTS))
        PRECISION) ∧
    (calculate_liquidation_price entry_price leverage Direction.Short
        maintenance_margin_bps =
      entry_price + Int.tdiv (entry_price *
        (Int.tdiv PRECISION (leverage : Int) -
         Int.tdiv ((maintenance_margin_bps : Int) * PRECISION) BASIS_POINTS))
        PRECISION) ∧
    (PRECISION ≤ entry_price *
        (Int.tdiv PRECISION (leverage : Int) -
         Int.tdiv ((maintenance_margin_bps : Int) * PRECISION) BASIS_POINTS) →
      calculate_liquidation_price entry_price leverage Direction.Long
          maintenance_margin_bps < entry_price ∧
      entry_price < calculate_liquidation_price entry_price leverage
          Direction.Short maintenance_margin_bps) ∧
    (leverage = 10 → maintenance_margin_bps = 100 → 12 ≤ entry_price →
      17 * entry_price <
        20 * calculate_liquidation_price entry_price 10 Direction.Long 100 ∧
      calculate_liquidation_price entry_price 10 Direction.Long 100 <
        entry_price ∧
      entry_price <
        calculate_liquidation_price entry_price 10 Direction.Short 100 ∧
      20 * calculate_liquidation_price entry_price 10 Direction.Short 100 <
        23 * entry_price) := by
  refine ⟨rfl, rfl, ?_, ?_⟩
  · intro hbig
    have h1 : 1 ≤ Int.tdiv (entry_price *
        (Int.tdiv PRECISION (leverage : Int) -
         Int.tdiv ((maintenance_margin_bps : Int) * PRECISION) BASIS_POINTS))
        PRECISION := one_le_tdiv_of_le (by norm_num [PRECISION]) hbig
    have e1 : calculate_liquidation_price entry_price leverage Direction.Long
        maintenance_margin_bps =
      entry_price - Int.tdiv (entry_price *
        (Int.tdiv PRECISION (leverage : Int) -
         Int.tdiv ((maintenance_margin_bps : Int) * PRECISION) BASIS_POINTS))
        PRECISION := rfl
    have e2 : calculate_liquidation_price entry_price leverage Direction.Short
        maintenance_margin_bps =
      entry_price + Int.tdiv (entry_price *
        (Int.tdiv PRECISION (leverage : Int) -
         Int.tdiv ((maintenance_margin_bps : Int) * PRECISION) BASIS_POINTS))
        PRECISION := rfl
    rw [e1, e2]
    omega
  · intro hlev hmm he
    subst hlev
    subst hmm
    have hadj : Int.tdiv PRECISION (((10 : Nat)) : Int) -
        Int.tdiv ((((100 : Nat)) : Int) * PRECISION) BASIS_POINTS = 900000 := by
      decide
    have e1 : calculate_liquidation_price entry_price 10 Direction.Long 100 =
        entry_price - Int.tdiv (entry_price * 900000) PRECISION := by
      show entry_price - Int.tdiv (entry_price *
          (Int.tdiv PRECISION (((10 : Nat)) : Int) -
           Int.tdiv ((((100 : Nat)) : Int) * PRECISION) BASIS_POINTS))
          PRECISION =
        entry_price - Int.tdiv (entry_price * 900000) PRECISION
      rw [hadj]
    have e2 : calculate_liquidation_price entry_price 10 Direction.Short 100 =
        entry_price + Int.tdiv (entry_price * 900000) PRECISION := by
      show entry_price + Int.tdiv (entry_price *
          (Int.tdiv PRECISION (((10 : Nat)) : Int) -
           Int.tdiv ((((100 : Nat)) : Int) * PRECISION) BASIS_POINTS))
          PRECISION =
        entry_price + Int.tdiv (entry_price * 900000) PRECISION
      rw [hadj]
    have hq : Int.tdiv (entry_price * 900000) PRECISION =
        9 * entry_price / 100 := by
      rw [Int.tdiv_eq_ediv (by nlinarith : (0:Int) ≤ entry_price * 900000)
        (by norm_num [PRECISION] : (0:Int) ≤ PRECISION)]
      rw [show entry_price * 900000 = 9 * entry_price * 100000 by ring,
          show PRECISION = 100 * 100000 by norm_num [PRECISION]]
      exact Int.mul_ediv_mul_of_pos_left _ _ (by norm_num)
    rw [e1, e2, hq]
    omega

/-- Witness for C5 at entry price 1.00, where strictness holds. -/
theorem c5_liquidation_price_witness :
    calculate_liquidation_price PRECISION 10 Direction.Long 100 < PRECISION ∧
    PRECISION < calculate_liquidation_price PRECISION 10 Direction.Short 100 :=
  (c5_liquidation_price_amended PRECISION 10 100).2.2.1 (by decide)

/-- C6 counterexample: the first deposit of X = 10000 into an empty pool
with a 30 bps deposit fee mints 9970 shares — net of the fee — not
exactly X shares as the claim states. -/
theorem c6_counterexample :
    deposit ⟨0, 0, 0, 0, 30, 0⟩ (10000 * PRECISION) =
      .ok (⟨10000 * PRECISION, 9970 * PRECISION, 0, 30 * PRECISION, 30, 0⟩,
        9970 * PRECISION) ∧
    (9970 * PRECISION : Int) ≠ 10000 * PRECISION := by decide

/-- C6 as amended: `deposit` computes `fee = amount × deposit_fee_bps /
10000` and `net = amount − fee`, mints shares 1:1 with `net` when the
total share supply is zero or the AUM is zero (not only when shares are
zero), and otherwise mints `net × total_shares / AUM` truncating toward
zero; it rejects with `InvalidAmount` when the minted amount would be
≤ 0; and the first deposit of X into an empty pool mints exactly
`X − fee` shares (equal to X only when the deposit fee is zero). -/
theorem c6_deposit_amended (s : VaultState) (usdc_amount : Int)
    (hpos : 0 < usdc_amount) :
    (deposit_minted s usdc_amount ≤ 0 →
      deposit s usdc_amount = .error NoetherError.InvalidAmount) ∧
    (0 < deposit_minted s usdc_amount →
      deposit s usdc_amount = .ok ({ s with
          total_usdc := s.total_usdc + usdc_amount
          total_fees := s.total_fees +
            Int.tdiv (usdc_amount * (s.deposit_fee_bps : Int)) BASIS_POINTS
          total_glp := s.total_glp + deposit_minted s usdc_amount },
        deposit_minted s usdc_amount)) ∧
    (s.total_glp = 0 →
      deposit_minted s usdc_amount = usdc_amount -
        Int.tdiv (usdc_amount * (s.deposit_fee_bps : Int)) BASIS_POINTS) := by
  have hq : ¬ usdc_amount ≤ 0 := by omega
  by_cases hc : s.total_glp = 0 ∨ calculate_aum_internal s = 0
  · simp only [deposit, deposit_minted, calculate_glp_for_deposit, hq,
      if_false, hc, if_true]
    refine ⟨?_, ?_, ?_⟩
    · intro hle
      rw [if_pos hle]
    · intro hlt
      rw [if_neg (by omega)]
    · intro _
      trivial
  · simp only [deposit, deposit_minted, calculate_glp_for_deposit, hq,
      if_false, hc]
    refine ⟨?_, ?_, ?_⟩
    · intro hle
      rw [if_pos hle]
    · intro hlt
      rw [if_neg (by omega)]
    · intro hz
      exact absurd (Or.inl hz) hc

/-- Witness for C6: a fee-free first deposit of 5.00 into an empty pool
succeeds and mints exactly the net amount. -/
theorem c6_deposit_witness :
    deposit ⟨0, 0, 0, 0, 0, 0⟩ (5 * PRECISION) =
      .ok (⟨5 * PRECISION, 5 * PRECISION, 0, 0, 0, 0⟩, 5 * PRECISION) := by
  have h := (c6_deposit_amended ⟨0, 0, 0, 0, 0, 0⟩ (5 * PRECISION)
    (by norm_num [PRECISION])).2.1 (by decide)
  exact h.trans (by decide)

end Noether
